import Mathlib

/-!
Shallow embedding of the delete2020/strmr repository: two stateless
command-line adapters (`src/parse_title.py` and `src/parse_title_batch.py`)
around the external `PTT.parse_title` capability, emitting JSON.
-/

set_option maxHeartbeats 1000000

/-- Dynamically typed Python value as consumed by `json.dumps(..., default=str)`.
`pyObj s` stands for a value the JSON encoder cannot natively represent
(not a plain primitive, mapping, or sequence), whose `str()` form is `s`. -/
inductive PyVal where
  | pyNone : PyVal
  | pyBool : Bool → PyVal
  | pyInt : Int → PyVal
  | pyStr : String → PyVal
  | pyList : List PyVal → PyVal
  | pyDict : List (String × PyVal) → PyVal
  | pyObj : String → PyVal

/-- Hexadecimal digit character, as used by Python's `\uXXXX` escapes. -/
def hexDigit (n : Nat) : Char :=
  if n < 10 then Char.ofNat (48 + n) else Char.ofNat (87 + n)

/-- Four-digit lowercase hexadecimal rendering of `n`, for `\uXXXX`. -/
def hex4 (n : Nat) : String :=
  String.mk [hexDigit (n / 4096 % 16), hexDigit (n / 256 % 16),
             hexDigit (n / 16 % 16), hexDigit (n % 16)]

/-- Escape of a single character inside a JSON string literal, following
Python's `json.dumps` default (`ensure_ascii=True`) policy. -/
def escapeChar (c : Char) : String :=
  if c = '\\' then "\\\\"
  else if c = '\"' then "\\\""
  else if c = '\n' then "\\n"
  else if c = '\r' then "\\r"
  else if c = '\t' then "\\t"
  else if c.toNat = 8 then "\\b"
  else if c.toNat = 12 then "\\f"
  else if c.toNat < 32 || 127 ≤ c.toNat then
    if c.toNat < 65536 then "\\u" ++ hex4 c.toNat
    else
      "\\u" ++ hex4 (55296 + (c.toNat - 65536) / 1024) ++
      "\\u" ++ hex4 (56320 + (c.toNat - 65536) % 1024)
  else String.singleton c

/-- JSON string literal for `s`, as produced by Python's `json.dumps`. -/
def escapeString (s : String) : String :=
  "\"" ++ String.join (s.data.map escapeChar) ++ "\""

mutual

/-- `json.dumps(v, default=str)`: serialization with Python's default
separators; a value the encoder cannot natively represent is replaced by
its `str()` form (the `default=str` fallback), so serialization is total. -/
def PyVal.dumps : PyVal → String
  | PyVal.pyNone => "null"
  | PyVal.pyBool true => "true"
  | PyVal.pyBool false => "false"
  | PyVal.pyInt n => toString n
  | PyVal.pyStr s => escapeString s
  | PyVal.pyList xs => "[" ++ dumpsList xs ++ "]"
  | PyVal.pyDict kvs => "\x7b" ++ dumpsDict kvs ++ "\x7d"
  | PyVal.pyObj s => escapeString s

/-- Comma-separated serialization of the elements of a JSON array. -/
def dumpsList : List PyVal → String
  | [] => ""
  | [v] => PyVal.dumps v
  | v :: rest => PyVal.dumps v ++ ", " ++ dumpsList rest

/-- Comma-separated serialization of the key/value entries of a JSON object. -/
def dumpsDict : List (String × PyVal) → String
  | [] => ""
  | [(k, v)] => escapeString k ++ ": " ++ PyVal.dumps v
  | (k, v) :: rest => escapeString k ++ ": " ++ PyVal.dumps v ++ ", " ++ dumpsDict rest

end

/-- Result of a successful `PTT.parse_title` call. The collaborator is
external to the repository; per the spec's data model it produces "an opaque
mapping", so a success is a mapping from string keys to dynamically typed
values. -/
def ParseResult : Type := List (String × PyVal)

/-- The external TitleParser capability: `PTT.parse_title` either returns a
structured result or raises an exception carrying a message string. It is
opaque to this repository, so the embedding quantifies over it. -/
def TitleParser : Type := String → Except String ParseResult

/-- Per-title record built by the batch adapter's loop body
(`src/parse_title_batch.py`, lines 22-33). -/
structure BatchItem where
  title : String
  parsed : Option ParseResult
  error : Option String

/-- Observable outcome of one adapter process: the lines written to stdout,
the lines written to stderr, and the exit status. -/
structure ProcResult where
  stdoutLines : List String
  stderrLines : List String
  exitCode : Nat

/-- The `{"error": <msg>}` envelope both adapters print on stderr. -/
def errorEnvelope (msg : String) : PyVal :=
  PyVal.pyDict [("error", PyVal.pyStr msg)]

/-- One iteration of the batch adapter's `for title in titles` loop
(`src/parse_title_batch.py`, lines 20-33): a successful parse yields
`{title, parsed, error: None}`, an exception yields
`{title, parsed: None, error: str(e)}`. -/
def processTitle (pt : TitleParser) (title : String) : BatchItem :=
  match pt title with
  | Except.ok parsed => { title := title, parsed := some parsed, error := none }
  | Except.error e => { title := title, parsed := none, error := some e }

/-- The `results` list accumulated by the batch adapter across its loop. -/
def batch_results (pt : TitleParser) (titles : List String) : List BatchItem :=
  titles.map (processTitle pt)

/-- Python dict literal the batch adapter appends for one item; key order
`title`, `parsed`, `error` as in the source. -/
def BatchItem.toPyVal (b : BatchItem) : PyVal :=
  PyVal.pyDict
    [("title", PyVal.pyStr b.title),
     ("parsed", match b.parsed with
                | some p => PyVal.pyDict p
                | none => PyVal.pyNone),
     ("error", match b.error with
               | some e => PyVal.pyStr e
               | none => PyVal.pyNone)]

/-- `main` of `src/parse_title.py`: with no positional argument, print
`{"error": "No title provided"}` to stderr and exit 1; otherwise take the
first positional argument as the title, call `PTT.parse_title`, and either
print `json.dumps(result, default=str)` to stdout (exit 0) or print
`json.dumps({"error": str(e)})` to stderr and exit 1. `args` is
`sys.argv[1:]`, the positional arguments. -/
def parse_title_main (pt : TitleParser) (args : List String) : ProcResult :=
  match args with
  | [] =>
    { stdoutLines := [],
      stderrLines := [PyVal.dumps (errorEnvelope "No title provided")],
      exitCode := 1 }
  | title :: _ =>
    match pt title with
    | Except.ok result =>
      { stdoutLines := [PyVal.dumps (PyVal.pyDict result)],
        stderrLines := [],
        exitCode := 0 }
    | Except.error e =>
      { stdoutLines := [],
        stderrLines := [PyVal.dumps (errorEnvelope e)],
        exitCode := 1 }

/-- `main` of `src/parse_title_batch.py`: with no positional argument, print
`{"error": "No titles provided"}` to stderr and exit 1; otherwise treat every
positional argument as a title, run the per-title loop, and print the
collected `results` as one JSON array line to stdout, exiting 0. -/
def parse_title_batch_main (pt : TitleParser) (args : List String) : ProcResult :=
  match args with
  | [] =>
    { stdoutLines := [],
      stderrLines := [PyVal.dumps (errorEnvelope "No titles provided")],
      exitCode := 1 }
  | _ =>
    let results := batch_results pt args
    { stdoutLines := [PyVal.dumps (PyVal.pyList (results.map BatchItem.toPyVal))],
      stderrLines := [],
      exitCode := 0 }

/-- Instrumented single-title adapter: same control flow as
`parse_title_main`, additionally recording, in order, every title the
external `PTT.parse_title` capability is invoked on. -/
def parse_title_mainT (pt : TitleParser) (args : List String) :
    ProcResult × List String :=
  match args with
  | [] =>
    ({ stdoutLines := [],
       stderrLines := [PyVal.dumps (errorEnvelope "No title provided")],
       exitCode := 1 }, [])
  | title :: _ =>
    match pt title with
    | Except.ok result =>
      ({ stdoutLines := [PyVal.dumps (PyVal.pyDict result)],
         stderrLines := [],
         exitCode := 0 }, [title])
    | Except.error e =>
      ({ stdoutLines := [],
         stderrLines := [PyVal.dumps (errorEnvelope e)],
         exitCode := 1 }, [title])

/-- Instrumented batch adapter: same control flow as
`parse_title_batch_main`, additionally recording, in order, every title the
external `PTT.parse_title` capability is invoked on (the loop performs
exactly one call per title). -/
def parse_title_batch_mainT (pt : TitleParser) (args : List String) :
    ProcResult × List String :=
  match args with
  | [] =>
    ({ stdoutLines := [],
       stderrLines := [PyVal.dumps (errorEnvelope "No titles provided")],
       exitCode := 1 }, [])
  | _ =>
    let pairs := args.map (fun title => (processTitle pt title, title))
    let results := pairs.map Prod.fst
    ({ stdoutLines := [PyVal.dumps (PyVal.pyList (results.map BatchItem.toPyVal))],
       stderrLines := [],
       exitCode := 0 }, pairs.map Prod.snd)

mutual

/-- `json.dumps(v)` WITHOUT the `default=str` fallback: the encoder raises
`TypeError` (here: `none`) on any value it cannot natively represent. Used
only to express which values the encoder cannot natively represent. -/
def dumpsND : PyVal → Option String
  | PyVal.pyNone => some "null"
  | PyVal.pyBool true => some "true"
  | PyVal.pyBool false => some "false"
  | PyVal.pyInt n => some (toString n)
  | PyVal.pyStr s => some (escapeString s)
  | PyVal.pyList xs =>
    match dumpsListND xs with
    | some body => some ("[" ++ body ++ "]")
    | none => none
  | PyVal.pyDict kvs =>
    match dumpsDictND kvs with
    | some body => some ("\x7b" ++ body ++ "\x7d")
    | none => none
  | PyVal.pyObj _ => none

/-- Array-element serialization without the fallback. -/
def dumpsListND : List PyVal → Option String
  | [] => some ""
  | [v] => dumpsND v
  | v :: rest =>
    match dumpsND v, dumpsListND rest with
    | some a, some b => some (a ++ ", " ++ b)
    | _, _ => none

/-- Object-entry serialization without the fallback. -/
def dumpsDictND : List (String × PyVal) → Option String
  | [] => some ""
  | [(k, v)] =>
    match dumpsND v with
    | some a => some (escapeString k ++ ": " ++ a)
    | none => none
  | (k, v) :: rest =>
    match dumpsND v, dumpsDictND rest with
    | some a, some b => some (escapeString k ++ ": " ++ a ++ ", " ++ b)
    | _, _ => none

end

/-- Subvalue relation on Python values: `OccursIn v w` holds when `v` appears
somewhere inside `w` — as `w` itself, as an array element, or as a mapping
value (transitively). -/
inductive OccursIn : PyVal → PyVal → Prop where
  | refl (v : PyVal) : OccursIn v v
  | inList {v x : PyVal} {xs : List PyVal} :
      OccursIn v x → x ∈ xs → OccursIn v (PyVal.pyList xs)
  | inDict {v x : PyVal} {k : String} {kvs : List (String × PyVal)} :
      OccursIn v x → (k, x) ∈ kvs → OccursIn v (PyVal.pyDict kvs)

/-- `strWithin a b`: the string `a` occurs contiguously inside the string
`b`. -/
def strWithin (a b : String) : Prop :=
  ∃ s t : List Char, s ++ a.data ++ t = b.data

theorem strWithin_refl (a : String) : strWithin a a :=
  ⟨[], [], by simp⟩

theorem strWithin_append_left (c : String) {a b : String} (h : strWithin a b) :
    strWithin a (c ++ b) := by
  obtain ⟨s, t, hst⟩ := h
  exact ⟨c.data ++ s, t, by rw [String.data_append, ← hst]; simp⟩

theorem strWithin_append_right (c : String) {a b : String} (h : strWithin a b) :
    strWithin a (b ++ c) := by
  obtain ⟨s, t, hst⟩ := h
  exact ⟨s, t ++ c.data, by rw [String.data_append, ← hst]; simp⟩

theorem strWithin_trans {a b c : String} (hab : strWithin a b)
    (hbc : strWithin b c) : strWithin a c := by
  obtain ⟨s, t, hst⟩ := hab
  obtain ⟨u, w, huw⟩ := hbc
  exact ⟨u ++ s, t ++ w, by rw [← huw, ← hst]; simp⟩

theorem dumps_within_dumpsList {x : PyVal} {xs : List PyVal} (h : x ∈ xs) :
    strWithin (PyVal.dumps x) (dumpsList xs) := by
  induction xs with
  | nil => cases h
  | cons v rest ih =>
    rcases List.mem_cons.mp h with hx | hx
    · subst hx
      cases rest with
      | nil => exact strWithin_refl _
      | cons y rest2 =>
        rw [show dumpsList (x :: y :: rest2) =
              PyVal.dumps x ++ ", " ++ dumpsList (y :: rest2) from rfl]
        exact strWithin_append_right _ (strWithin_append_right _ (strWithin_refl _))
    · cases rest with
      | nil => cases hx
      | cons y rest2 =>
        rw [show dumpsList (v :: y :: rest2) =
              PyVal.dumps v ++ ", " ++ dumpsList (y :: rest2) from rfl]
        exact strWithin_append_left _ (ih hx)

theorem dumps_within_dumpsDict {x : PyVal} {k : String}
    {kvs : List (String × PyVal)} (h : (k, x) ∈ kvs) :
    strWithin (PyVal.dumps x) (dumpsDict kvs) := by
  induction kvs with
  | nil => cases h
  | cons kv rest ih =>
    obtain ⟨k0, v0⟩ := kv
    rcases List.mem_cons.mp h with hx | hx
    · obtain ⟨hk, hv⟩ := Prod.mk.injEq .. ▸ hx
      subst hk
      cases rest with
      | nil =>
        rw [show dumpsDict [(k, v0)] = escapeString k ++ ": " ++ PyVal.dumps v0 from rfl]
        rw [show x = v0 from congrArg Prod.snd hx]
        exact strWithin_append_left _ (strWithin_refl _)
      | cons kv2 rest2 =>
        rw [show dumpsDict ((k, v0) :: kv2 :: rest2) =
              escapeString k ++ ": " ++ PyVal.dumps v0 ++ ", " ++
              dumpsDict (kv2 :: rest2) from rfl]
        rw [show x = v0 from congrArg Prod.snd hx]
        exact strWithin_append_right _ (strWithin_append_right _
          (strWithin_append_left _ (strWithin_refl _)))
    · cases rest with
      | nil => cases hx
      | cons kv2 rest2 =>
        rw [show dumpsDict ((k0, v0) :: kv2 :: rest2) =
              escapeString k0 ++ ": " ++ PyVal.dumps v0 ++ ", " ++
              dumpsDict (kv2 :: rest2) from rfl]
        exact strWithin_append_left _ (ih hx)

theorem dumps_occursIn_within {v w : PyVal} (h : OccursIn v w) :
    strWithin (PyVal.dumps v) (PyVal.dumps w) := by
  induction h with
  | refl => exact strWithin_refl _
  | inList hocc hmem ih =>
    refine strWithin_trans ih ?_
    rw [show PyVal.dumps (PyVal.pyList _) = "[" ++ dumpsList _ ++ "]" from rfl]
    exact strWithin_append_right _
      (strWithin_append_left _ (dumps_within_dumpsList hmem))
  | inDict hocc hmem ih =>
    refine strWithin_trans ih ?_
    rw [show PyVal.dumps (PyVal.pyDict _) = "\x7b" ++ dumpsDict _ ++ "\x7d" from rfl]
    exact strWithin_append_right _
      (strWithin_append_left _ (dumps_within_dumpsDict hmem))

theorem processTitle_title (pt : TitleParser) (a : String) :
    (processTitle pt a).title = a := by
  unfold processTitle
  cases pt a <;> rfl

theorem parse_title_mainT_fst (pt : TitleParser) (args : List String) :
    (parse_title_mainT pt args).1 = parse_title_main pt args := by
  cases args with
  | nil => rfl
  | cons t rest =>
    simp only [parse_title_mainT, parse_title_main]
    cases pt t <;> rfl

theorem parse_title_batch_mainT_fst (pt : TitleParser) (args : List String) :
    (parse_title_batch_mainT pt args).1 = parse_title_batch_main pt args := by
  cases args with
  | nil => rfl
  | cons t rest =>
    simp only [parse_title_batch_mainT, parse_title_batch_main, batch_results,
               List.map_map, List.map_cons]
    rfl

/-- Claim C1: for every non-empty list of positional arguments given to the
batch adapter, every positional argument becomes a separate item, and the
output array has the same length and order as the input list:
`len(output) == len(input)` and `output[i].title == input[i]` for every
index `i`. -/
theorem batch_output_matches_input (pt : TitleParser) (t : String)
    (rest : List String) :
    (batch_results pt (t :: rest)).length = (t :: rest).length ∧
    ∀ i : Nat,
      ((batch_results pt (t :: rest))[i]?).map BatchItem.title = (t :: rest)[i]? := by
  constructor
  · simp [batch_results]
  · intro i
    simp only [batch_results, List.getElem?_map, Option.map_map]
    cases h : (t :: rest)[i]? with
    | none => rfl
    | some a => simp [Function.comp, processTitle_title]

/-- Claim C2: every BatchItem produced for a title has exactly one of
`parsed` and `error` non-null — on parser success `parsed` is the parser's
result and `error` is null, on parser failure `parsed` is null and `error`
is the failure message; never both non-null, never both null. -/
theorem batch_item_exactly_one (pt : TitleParser) (title : String) :
    (∀ p, pt title = Except.ok p →
      (processTitle pt title).parsed = some p ∧
      (processTitle pt title).error = none) ∧
    (∀ e, pt title = Except.error e →
      (processTitle pt title).parsed = none ∧
      (processTitle pt title).error = some e) ∧
    ((processTitle pt title).parsed.isSome ↔
      (processTitle pt title).error.isNone) := by
  cases h : pt title with
  | ok p => simp [processTitle, h]
  | error e => simp [processTitle, h]

theorem batch_item_exactly_one_witness :
    ((fun _ => Except.ok [] : TitleParser) "x" = Except.ok [] ∧
      (processTitle (fun _ => Except.ok [] : TitleParser) "x").parsed = some [] ∧
      (processTitle (fun _ => Except.ok [] : TitleParser) "x").error = none) :=
  ⟨rfl, (batch_item_exactly_one (fun _ => Except.ok [] : TitleParser) "x").1 [] rfl⟩

/-- Claim C3: with at least one title, a parser failure on an individual
title does not abort the batch: every title is still processed (the results
list covers the whole input), the ordered array is written to stdout as a
single line, and the process exits 0 no matter how many items failed. -/
theorem batch_failure_does_not_abort (pt : TitleParser) (t : String)
    (rest : List String) :
    (parse_title_batch_main pt (t :: rest)).exitCode = 0 ∧
    (parse_title_batch_main pt (t :: rest)).stdoutLines =
      [PyVal.dumps (PyVal.pyList
        ((batch_results pt (t :: rest)).map BatchItem.toPyVal))] ∧
    (batch_results pt (t :: rest)).length = (t :: rest).length :=
  ⟨rfl, rfl, by simp [batch_results]⟩

/-- Claim C4: with zero positional arguments the single-title adapter writes
exactly `{"error": "No title provided"}` to stderr and the batch adapter
writes exactly `{"error": "No titles provided"}` to stderr; both exit with
code 1 and write nothing to stdout. -/
theorem usage_error_envelopes (pt ptb : TitleParser) :
    parse_title_main pt [] =
      { stdoutLines := [],
        stderrLines := ["\x7b\"error\": \"No title provided\"\x7d"],
        exitCode := 1 } ∧
    parse_title_batch_main ptb [] =
      { stdoutLines := [],
        stderrLines := ["\x7b\"error\": \"No titles provided\"\x7d"],
        exitCode := 1 } :=
  ⟨rfl, rfl⟩

/-- Claim C5: with at least one positional argument the single-title adapter
either (on parser success) prints the serialized result as one stdout line
and exits 0, or (on parser failure) prints the `{"error": <message>}`
envelope as one stderr line and exits non-zero; in every case exactly one
line goes to exactly one of the two streams. -/
theorem single_adapter_outcome (pt : TitleParser) (t : String)
    (rest : List String) :
    (∀ v, pt t = Except.ok v →
      parse_title_main pt (t :: rest) =
        { stdoutLines := [PyVal.dumps (PyVal.pyDict v)],
          stderrLines := [], exitCode := 0 }) ∧
    (∀ e, pt t = Except.error e →
      parse_title_main pt (t :: rest) =
        { stdoutLines := [],
          stderrLines := [PyVal.dumps (errorEnvelope e)], exitCode := 1 } ∧
      (parse_title_main pt (t :: rest)).exitCode ≠ 0) ∧
    (parse_title_main pt (t :: rest)).stdoutLines.length +
      (parse_title_main pt (t :: rest)).stderrLines.length = 1 := by
  cases h : pt t with
  | ok v => simp [parse_title_main, h]
  | error e => simp [parse_title_main, h]

theorem single_adapter_outcome_witness :
    ((fun _ => Except.ok [("year", PyVal.pyInt 1999)] : TitleParser) "x" =
      Except.ok [("year", PyVal.pyInt 1999)]) ∧
    parse_title_main (fun _ => Except.ok [("year", PyVal.pyInt 1999)] : TitleParser)
        ["x"] =
      { stdoutLines := [PyVal.dumps (PyVal.pyDict [("year", PyVal.pyInt 1999)])],
        stderrLines := [], exitCode := 0 } :=
  ⟨rfl,
    (single_adapter_outcome
      (fun _ => Except.ok [("year", PyVal.pyInt 1999)] : TitleParser) "x" []).1
      [("year", PyVal.pyInt 1999)] rfl⟩

/-- Claim C6: with at least one positional argument the single-title adapter
uses only the first one as the title; additional arguments change nothing
(same output, no validation, no error). -/
theorem single_adapter_ignores_extra_args (pt : TitleParser) (t : String)
    (rest : List String) :
    parse_title_main pt (t :: rest) = parse_title_main pt [t] := rfl

/-- Claim C7: a value the JSON encoder cannot natively represent (here
`pyObj`, rejected by the fallback-free encoder `dumpsND`) is emitted by both
adapters in their output JSON as its string form, and serialization with the
`default=str` fallback never fails (it is the total function `PyVal.dumps`).
For the batch adapter the value may occur in the parse result of ANY member
`t0` of the argument list, not just the first; for the single adapter only
the first argument is ever parsed, so its result is the relevant one. -/
theorem nonserializable_value_stringified (pt : TitleParser) (s t0 : String)
    (rest args : List String) (v : ParseResult)
    (hmem : t0 ∈ args) (hpt : pt t0 = Except.ok v)
    (h : OccursIn (PyVal.pyObj s) (PyVal.pyDict v)) :
    dumpsND (PyVal.pyObj s) = none ∧
    PyVal.dumps (PyVal.pyObj s) = escapeString s ∧
    (∃ line, (parse_title_main pt (t0 :: rest)).stdoutLines = [line] ∧
      strWithin (escapeString s) line) ∧
    (∃ bline, (parse_title_batch_main pt args).stdoutLines = [bline] ∧
      strWithin (escapeString s) bline) := by
  have hitem : processTitle pt t0 = { title := t0, parsed := some v, error := none } := by
    simp [processTitle, hpt]
  have hocc2 : OccursIn (PyVal.pyObj s) ((processTitle pt t0).toPyVal) := by
    rw [hitem]
    exact OccursIn.inDict h (List.Mem.tail _ (List.Mem.head _))
  refine ⟨rfl, rfl, ?_, ?_⟩
  · refine ⟨PyVal.dumps (PyVal.pyDict v), ?_, dumps_occursIn_within h⟩
    simp [parse_title_main, hpt]
  · obtain ⟨a, args2, rfl⟩ : ∃ a args2, args = a :: args2 := by
      cases args with
      | nil => cases hmem
      | cons a args2 => exact ⟨a, args2, rfl⟩
    refine ⟨PyVal.dumps (PyVal.pyList
        ((batch_results pt (a :: args2)).map BatchItem.toPyVal)), rfl, ?_⟩
    have hmem2 : (processTitle pt t0).toPyVal ∈
        (batch_results pt (a :: args2)).map BatchItem.toPyVal :=
      List.mem_map_of_mem _ (List.mem_map_of_mem _ hmem)
    exact dumps_occursIn_within (OccursIn.inList hocc2 hmem2)

theorem nonserializable_value_stringified_witness :
    dumpsND (PyVal.pyObj "OBJ") = none ∧
    PyVal.dumps (PyVal.pyObj "OBJ") = escapeString "OBJ" ∧
    (∃ line, (parse_title_main
        (fun t => if t = "b" then Except.ok [("x", PyVal.pyObj "OBJ")]
                  else Except.ok [] : TitleParser)
        ["b"]).stdoutLines = [line] ∧
      strWithin (escapeString "OBJ") line) ∧
    (∃ bline, (parse_title_batch_main
        (fun t => if t = "b" then Except.ok [("x", PyVal.pyObj "OBJ")]
                  else Except.ok [] : TitleParser)
        ["a", "b"]).stdoutLines = [bline] ∧
      strWithin (escapeString "OBJ") bline) :=
  nonserializable_value_stringified
    (fun t => if t = "b" then Except.ok [("x", PyVal.pyObj "OBJ")]
              else Except.ok [] : TitleParser)
    "OBJ" "b" [] ["a", "b"] [("x", PyVal.pyObj "OBJ")]
    (List.Mem.tail _ (List.Mem.head _)) rfl
    (OccursIn.inDict (OccursIn.refl _) (List.Mem.head _))

/-- Claim C8: with a fixed argument list and a deterministic parser, two
invocations of either adapter produce identical output lines on the same
streams and the same exit code (byte-identical runs). -/
theorem adapters_deterministic (pt pt2 : TitleParser) (args args2 : List String)
    (hpt : ∀ a, pt a = pt2 a) (hargs : args = args2) :
    parse_title_main pt args = parse_title_main pt2 args2 ∧
    parse_title_batch_main pt args = parse_title_batch_main pt2 args2 := by
  cases funext hpt
  cases hargs
  exact ⟨rfl, rfl⟩

theorem adapters_deterministic_witness :
    parse_title_main (fun _ => Except.error "boom" : TitleParser) ["t"] =
      parse_title_main (fun _ => Except.error "boom" : TitleParser) ["t"] ∧
    parse_title_batch_main (fun _ => Except.error "boom" : TitleParser) ["t"] =
      parse_title_batch_main (fun _ => Except.error "boom" : TitleParser) ["t"] :=
  adapters_deterministic _ _ _ _ (fun _ => rfl) rfl

/-- Claim C9: invoked with zero positional arguments, neither adapter ever
calls the TitleParser capability — the instrumented runs record an empty
call trace — and the usage-error branch exits with code 1. -/
theorem usage_error_no_parser_call (pt ptb : TitleParser) :
    (parse_title_mainT pt []).2 = [] ∧
    (parse_title_mainT pt []).1.exitCode = 1 ∧
    (parse_title_batch_mainT ptb []).2 = [] ∧
    (parse_title_batch_mainT ptb []).1.exitCode = 1 :=
  ⟨rfl, rfl, rfl, rfl⟩

/-- Claim C10: with at least one positional argument the batch adapter
writes nothing to stderr — no matter what the parser does, including failing
on every title — and writes exactly one line (the JSON array) to stdout. -/
theorem batch_nonempty_frame (pt : TitleParser) (t : String)
    (rest : List String) :
    (parse_title_batch_main pt (t :: rest)).stderrLines = [] ∧
    (parse_title_batch_main pt (t :: rest)).stdoutLines.length = 1 :=
  ⟨rfl, rfl⟩
